import Mathlib

/-!
Verification development for the `zks` JSON-RPC namespace of a layer-2
rollup node (file `core/bin/zksync_core/src/api_server/web3/backend_jsonrpc/namespaces/zks.rs`)
together with the proof-and-estimation core described by the system
specification (Merkle commitment builder, log proof service, fee estimator).

The RPC wrapper layer is embedded directly from the source file: each
trait method clones the namespace and either returns `Ok` of the pure
impl value or awaits the fallible impl and maps its `Web3Error` through
`into_jsrpc_error`.  The async layer adds no behaviour (each future is
exactly one awaited impl call), so methods are embedded as plain
functions from the impl results to the RPC results.

The `*_impl` methods, the Merkle tree and the fee-estimation search are
not part of the source file; where a claim depends on them they are
modelled from the specification (each such definition carries a
`Modelled from the spec:` doc comment).
-/

/-- 256-bit unsigned integer (`U256` of `zksync_types`). -/
abbrev U256 := Fin (2 ^ 256)

/-- 64-bit unsigned integer (`U64` of `zksync_types`). -/
abbrev U64 := Fin (2 ^ 64)

/-- 256-bit hash (`H256`); modelled as a natural-number identifier, the
bit width plays no role in the claims. -/
abbrev H256 := Nat

/-- Account address (`H160`); modelled as a natural-number identifier. -/
abbrev Address := Nat

/-- Hash values used by the Merkle commitment builder. -/
abbrev Hash := Nat

/-- One byte. -/
abbrev Byte := Fin 256

/-- `Bytes` (a byte vector). -/
abbrev Bytes := List Byte

/-- Typed miniblock number (`MiniblockNumber(u32)` newtype). -/
structure MiniblockNumber where
  val : Nat
deriving DecidableEq

/-- Typed L1 batch number (`L1BatchNumber(u32)` newtype). -/
structure L1BatchNumber where
  val : Nat
deriving DecidableEq

/-- Modelled from the spec: the typed error taxonomy of section 7
(`Web3Error` of `zksync_web3_decl`; its definition is outside the given
source file).  Only the variants the claims mention are carried. -/
inductive Web3Error where
  | notImplemented : Web3Error
  | ambiguousLog : Web3Error
  | indexOutOfRange : Web3Error
  | batchEmpty : Web3Error
  | executionReverted : String → Web3Error
  | gasOverflow : Web3Error
  | unavailable : Web3Error
  | internalError : Web3Error
deriving DecidableEq

/-- A JSON-RPC protocol error value (`jsonrpc_core::Error`). -/
structure JsrpcError where
  code : Int
  message : String
deriving DecidableEq

/-- Modelled from the spec: `into_jsrpc_error` (defined in
`backend_jsonrpc/error.rs`, outside the given source file) converts a
typed `Web3Error` into the JSON-RPC error value reported to the client. -/
def into_jsrpc_error : Web3Error → JsrpcError
  | .notImplemented => ⟨-32001, "method not implemented"⟩
  | .ambiguousLog => ⟨-32002, "ambiguous log: position required"⟩
  | .indexOutOfRange => ⟨-32003, "index out of range"⟩
  | .batchEmpty => ⟨-32004, "batch has no logs"⟩
  | .executionReverted r => ⟨3, r⟩
  | .gasOverflow => ⟨-32005, "gas overflow"⟩
  | .unavailable => ⟨-32006, "collaborator unavailable"⟩
  | .internalError => ⟨-32603, "internal error"⟩

/-- The RPC-layer result type (`jsonrpc_core::Result<T>`). -/
abbrev RpcResult (α : Type) := Except JsrpcError α

/-- Modelled from the spec: a fee-estimation call request
(`CallRequest` of `zksync_types::transaction_request`): a
transaction-like object carrying sender, recipient, data and value. -/
structure CallRequest where
  sender : Option Address
  recipient : Option Address
  data : Bytes
  value : Option U256
deriving DecidableEq

/-- Modelled from the spec: the fee estimate (`Fee` of
`zksync_types::fee`): `{gasLimit: u64, maxFeePerGas: u256,
maxPriorityFeePerGas: u256, gasPerPubdata: u64}`. -/
structure Fee where
  gasLimit : U64
  maxFeePerGas : U256
  maxPriorityFeePerGas : U256
  gasPerPubdata : U64
deriving DecidableEq

/-- Bridge contract addresses (`BridgeAddresses`). -/
structure BridgeAddresses where
  l1Erc20DefaultBridge : Address
  l2Erc20DefaultBridge : Address
deriving DecidableEq

/-- A confirmed token entry (`zksync_web3_decl::types::Token`); its
contents are opaque to the RPC wrapper layer. -/
structure Token where
  l1Address : Address
  l2Address : Address
  symbol : String
  decimals : Nat
deriving DecidableEq

/-- Exact decimal number (`bigdecimal::BigDecimal`): mantissa × 10^(-scale). -/
structure BigDecimal where
  mantissa : Int
  scale : Nat
deriving DecidableEq

/-- Transaction details record (`TransactionDetails`); opaque payload,
its contents are irrelevant to the wrapper layer. -/
structure TransactionDetails where
  payload : Nat
deriving DecidableEq

/-- Block details record (`BlockDetails`); opaque payload. -/
structure BlockDetails where
  payload : Nat
deriving DecidableEq

/-- L1 batch details record (`L1BatchDetails`); opaque payload. -/
structure L1BatchDetails where
  payload : Nat
deriving DecidableEq

/-- A raw transaction (`zksync_types::Transaction`); opaque payload. -/
structure Transaction where
  payload : Nat
deriving DecidableEq

/-- A cross-layer log inclusion proof (`L2ToL1LogProof`, the spec's
`LogProof`): root, sibling path in leaf-to-root order, and leaf index. -/
structure L2ToL1LogProof where
  root : Hash
  proof : List Hash
  index : Nat
deriving DecidableEq

/-- The `ZksNamespace` backing object, represented by its `*_impl`
methods: each field is the (awaited) result function of the
corresponding impl method that the RPC wrapper delegates to.  Fallible
impls return `Except Web3Error`; infallible impls return plain values.
`set_known_bytecode_impl` exists only under the `openzeppelin_tests`
feature; the field is carried so the compiled-out wrapper's independence
from it can be stated. -/
structure ZksNamespace where
  estimate_fee_impl : CallRequest → Except Web3Error Fee
  estimate_l1_to_l2_gas_impl : CallRequest → Except Web3Error U256
  get_main_contract_impl : Address
  get_miniblock_range_impl : L1BatchNumber → Except Web3Error (Option (U64 × U64))
  get_testnet_paymaster_impl : Option Address
  get_bridge_contracts_impl : BridgeAddresses
  l1_chain_id_impl : U64
  get_confirmed_tokens_impl : Nat → Nat → Except Web3Error (List Token)
  get_token_price_impl : Address → Except Web3Error BigDecimal
  get_all_account_balances_impl : Address → Except Web3Error (List (Address × U256))
  get_l2_to_l1_msg_proof_impl :
    MiniblockNumber → Address → H256 → Option Nat → Except Web3Error (Option L2ToL1LogProof)
  get_l2_to_l1_log_proof_impl :
    H256 → Option Nat → Except Web3Error (Option L2ToL1LogProof)
  get_l1_batch_number_impl : Except Web3Error U64
  get_block_details_impl : MiniblockNumber → Except Web3Error (Option BlockDetails)
  get_transaction_details_impl : H256 → Except Web3Error (Option TransactionDetails)
  set_known_bytecode_impl : Bytes → Bool
  get_raw_block_transactions_impl : MiniblockNumber → Except Web3Error (List Transaction)
  get_l1_batch_details_impl : L1BatchNumber → Except Web3Error (Option L1BatchDetails)
  get_bytecode_by_hash_impl : H256 → Option (List Byte)
  get_l1_gas_price_impl : U64

/-- `zks_estimateFee` (zks.rs lines 110-113): awaits `estimate_fee_impl`
and maps the error through `into_jsrpc_error`. -/
def ZksNamespace.estimate_fee (self : ZksNamespace) (req : CallRequest) : RpcResult Fee :=
  (self.estimate_fee_impl req).mapError into_jsrpc_error

/-- `zks_estimateGasL1ToL2` (zks.rs lines 115-123): awaits
`estimate_l1_to_l2_gas_impl` (result type `U256`) and maps the error
through `into_jsrpc_error`. -/
def ZksNamespace.estimate_gas_l1_to_l2 (self : ZksNamespace) (req : CallRequest) :
    RpcResult U256 :=
  (self.estimate_l1_to_l2_gas_impl req).mapError into_jsrpc_error

/-- `zks_getMainContract` (zks.rs lines 125-128): always `Ok`. -/
def ZksNamespace.get_main_contract (self : ZksNamespace) : RpcResult Address :=
  .ok self.get_main_contract_impl

/-- `zks_getL1BatchBlockRange` (zks.rs lines 130-138). -/
def ZksNamespace.get_miniblock_range (self : ZksNamespace) (batch : L1BatchNumber) :
    RpcResult (Option (U64 × U64)) :=
  (self.get_miniblock_range_impl batch).mapError into_jsrpc_error

/-- `zks_getTestnetPaymaster` (zks.rs lines 140-143): always `Ok`. -/
def ZksNamespace.get_testnet_paymaster (self : ZksNamespace) : RpcResult (Option Address) :=
  .ok self.get_testnet_paymaster_impl

/-- `zks_getBridgeContracts` (zks.rs lines 145-148): always `Ok`. -/
def ZksNamespace.get_bridge_contracts (self : ZksNamespace) : RpcResult BridgeAddresses :=
  .ok self.get_bridge_contracts_impl

/-- `zks_L1ChainId` (zks.rs lines 150-153): always `Ok`. -/
def ZksNamespace.l1_chain_id (self : ZksNamespace) : RpcResult U64 :=
  .ok self.l1_chain_id_impl

/-- `zks_getConfirmedTokens` (zks.rs lines 155-163). -/
def ZksNamespace.get_confirmed_tokens (self : ZksNamespace) (fromIdx limit : Nat) :
    RpcResult (List Token) :=
  (self.get_confirmed_tokens_impl fromIdx limit).mapError into_jsrpc_error

/-- `zks_getTokenPrice` (zks.rs lines 165-173). -/
def ZksNamespace.get_token_price (self : ZksNamespace) (tokenAddress : Address) :
    RpcResult BigDecimal :=
  (self.get_token_price_impl tokenAddress).mapError into_jsrpc_error

/-- `zks_getAllAccountBalances` (zks.rs lines 175-186). -/
def ZksNamespace.get_all_account_balances (self : ZksNamespace) (address : Address) :
    RpcResult (List (Address × U256)) :=
  (self.get_all_account_balances_impl address).mapError into_jsrpc_error

/-- `zks_getL2ToL1MsgProof` (zks.rs lines 188-202). -/
def ZksNamespace.get_l2_to_l1_msg_proof (self : ZksNamespace) (block : MiniblockNumber)
    (sender : Address) (msg : H256) (l2LogPosition : Option Nat) :
    RpcResult (Option L2ToL1LogProof) :=
  (self.get_l2_to_l1_msg_proof_impl block sender msg l2LogPosition).mapError into_jsrpc_error

/-- `zks_getL2ToL1LogProof` (zks.rs lines 204-216). -/
def ZksNamespace.get_l2_to_l1_log_proof (self : ZksNamespace) (txHash : H256)
    (index : Option Nat) : RpcResult (Option L2ToL1LogProof) :=
  (self.get_l2_to_l1_log_proof_impl txHash index).mapError into_jsrpc_error

/-- `zks_L1BatchNumber` (zks.rs lines 218-226). -/
def ZksNamespace.get_l1_batch_number (self : ZksNamespace) : RpcResult U64 :=
  self.get_l1_batch_number_impl.mapError into_jsrpc_error

/-- `zks_getBlockDetails` (zks.rs lines 228-239). -/
def ZksNamespace.get_block_details (self : ZksNamespace) (blockNumber : MiniblockNumber) :
    RpcResult (Option BlockDetails) :=
  (self.get_block_details_impl blockNumber).mapError into_jsrpc_error

/-- `zks_getTransactionDetails` (zks.rs lines 241-249). -/
def ZksNamespace.get_transaction_details (self : ZksNamespace) (hash : H256) :
    RpcResult (Option TransactionDetails) :=
  (self.get_transaction_details_impl hash).mapError into_jsrpc_error

/-- `zks_setKnownBytecode` (zks.rs lines 251-261), compiled without the
`openzeppelin_tests` feature: the `cfg(not(feature))` branch is taken,
so the wrapper ignores the bytecode (and the feature-gated impl) and
returns `Err(into_jsrpc_error(Web3Error::NotImplemented))`. -/
def ZksNamespace.set_known_bytecode (_self : ZksNamespace) (_bytecode : Bytes) :
    RpcResult Bool :=
  .error (into_jsrpc_error .notImplemented)

/-- `zks_getRawBlockTransactions` (zks.rs lines 263-274). -/
def ZksNamespace.get_raw_block_transactions (self : ZksNamespace)
    (blockNumber : MiniblockNumber) : RpcResult (List Transaction) :=
  (self.get_raw_block_transactions_impl blockNumber).mapError into_jsrpc_error

/-- `zks_getL1BatchDetails` (zks.rs lines 276-287). -/
def ZksNamespace.get_l1_batch_details (self : ZksNamespace) (batch : L1BatchNumber) :
    RpcResult (Option L1BatchDetails) :=
  (self.get_l1_batch_details_impl batch).mapError into_jsrpc_error

/-- `zks_getBytecodeByHash` (zks.rs lines 289-292): always `Ok`. -/
def ZksNamespace.get_bytecode_by_hash (self : ZksNamespace) (hash : H256) :
    RpcResult (Option (List Byte)) :=
  .ok (self.get_bytecode_by_hash_impl hash)

/-- `zks_getL1GasPrice` (zks.rs lines 294-297): always `Ok`. -/
def ZksNamespace.get_l1_gas_price (self : ZksNamespace) : RpcResult U64 :=
  .ok self.get_l1_gas_price_impl

/-- Modelled from the spec: a cross-layer log (section 3), the record
over which the Merkle commitment is built. -/
structure Log where
  sender : Address
  key : H256
  value : H256
  isService : Bool
  shardId : Nat
  txNumberInBlock : Nat
deriving DecidableEq

/-- Modelled from the spec: the hashing contract of the Merkle
commitment builder (section 4.1): a domain-separated leaf hash, a
non-commutative internal node hash, and the canonical zero-leaf
constant used for padding.  The precise constants are an external
compatibility requirement, so the development is generic in the scheme. -/
structure HashScheme where
  leafHash : Log → Hash
  nodeHash : Hash → Hash → Hash
  zeroHash : Hash

/-- Modelled from the spec: root of the complete subtree of depth `d`
whose leaves are `f 0 … f (2^d - 1)` (section 4.1: internal node hash of
left and right children, order-sensitive). -/
def subRoot (s : HashScheme) : Nat → (Nat → Hash) → Hash
  | 0, f => f 0
  | d + 1, f => s.nodeHash (subRoot s d f) (subRoot s d (fun j => f (j + 2 ^ d)))

/-- Modelled from the spec: the sibling hash path for leaf `i` of the
depth-`d` tree over `f`, in leaf-to-root order (section 4.1,
`proveAt` returns the sibling at each level from leaf to root). -/
def proofPath (s : HashScheme) : Nat → (Nat → Hash) → Nat → List Hash
  | 0, _, _ => []
  | d + 1, f, i =>
    if i < 2 ^ d then
      proofPath s d f i ++ [subRoot s d (fun j => f (j + 2 ^ d))]
    else
      proofPath s d (fun j => f (j + 2 ^ d)) (i - 2 ^ d) ++ [subRoot s d f]

/-- Modelled from the spec: the verifier's root recomputation
(section 3, `verify(leaf, proof, index)`): fold the sibling path from
the leaf upward, the index's binary digits choosing the side at each
level. -/
def verifyPath (s : HashScheme) : Hash → List Hash → Nat → Hash
  | leaf, [], _ => leaf
  | leaf, sib :: rest, i =>
    if i % 2 = 0 then verifyPath s (s.nodeHash leaf sib) rest (i / 2)
    else verifyPath s (s.nodeHash sib leaf) rest (i / 2)

/-- Modelled from the spec: the padded leaf vector of a log sequence —
leaf hashes in emission order, unused leaves filled with the canonical
zero-hash (section 4.1). -/
def leafAt (s : HashScheme) (logs : List Log) : Nat → Hash :=
  fun i => if h : i < logs.length then s.leafHash (logs.get ⟨i, h⟩) else s.zeroHash

/-- Modelled from the spec: `build(logs) -> Root` (section 4.1) — the
fixed-depth-`D` Merkle root over the padded leaf vector. -/
def build (s : HashScheme) (D : Nat) (logs : List Log) : Hash :=
  subRoot s D (leafAt s logs)

/-- Modelled from the spec: `proveAt(logs, index) -> LogProof`
(section 4.1), with the documented errors: `BatchEmpty` when `logs` is
empty, `IndexOutOfRange` when `index >= logs.length`. -/
def proveAt (s : HashScheme) (D : Nat) (logs : List Log) (i : Nat) :
    Except Web3Error L2ToL1LogProof :=
  if logs.isEmpty then .error .batchEmpty
  else if i < logs.length then
    .ok ⟨build s D logs, proofPath s D (leafAt s logs) i, i⟩
  else .error .indexOutOfRange

/-- Modelled from the spec: the storage / log-index collaborator
(section 6).  `getBatchContaining` and `getBatchOfTx` return `none`
when the block / transaction does not exist or is not yet included in a
settled batch; `getLogIndicesForTx` lists the positions of a
transaction's logs inside its batch's global log sequence in order;
`logBlock` says which miniblock emitted the log at a given global
position (used to scope message-mode matching to the requested block). -/
structure Storage where
  getBatchContaining : MiniblockNumber → Option L1BatchNumber
  getLogsForBatch : L1BatchNumber → List Log
  getBatchOfTx : H256 → Option L1BatchNumber
  getLogIndicesForTx : H256 → List Nat
  logBlock : L1BatchNumber → Nat → MiniblockNumber

/-- Modelled from the spec: resolution mode 1 of the log proof service
(section 4.2) — by `(blockNumber, sender, message, optionalPosition)`.
The containing batch is looked up (absence yields `Ok none`); the
batch's logs are scanned for entries in the requested block whose
sender matches and whose value equals the (already hashed) message;
`optionalPosition` selects the Nth match, its absence requires exactly
one match (`AmbiguousLog` otherwise, `Ok none` when there is no match);
the resolved global index is delegated to the Merkle builder. -/
def get_l2_to_l1_msg_proof_model (s : HashScheme) (D : Nat) (st : Storage)
    (block : MiniblockNumber) (sender : Address) (msg : H256) (pos : Option Nat) :
    Except Web3Error (Option L2ToL1LogProof) :=
  match st.getBatchContaining block with
  | none => .ok none
  | some batch =>
    let logs := st.getLogsForBatch batch
    let matchIdxs :=
      (logs.enum.filter fun p =>
        st.logBlock batch p.1 = block ∧ p.2.sender = sender ∧ p.2.value = msg).map
        fun p => p.1
    match pos with
    | some p =>
      match matchIdxs.get? p with
      | some gidx => (proveAt s D logs gidx).map some
      | none => .error .indexOutOfRange
    | none =>
      match matchIdxs with
      | [] => .ok none
      | [gidx] => (proveAt s D logs gidx).map some
      | _ => .error .ambiguousLog

/-- Modelled from the spec: resolution mode 2 of the log proof service
(section 4.2) — by `(transactionHash, optionalIndex)`.  The
transaction's batch is looked up (absence — unknown or not yet settled
— yields `Ok none`); `optionalIndex` selects among the transaction's
logs (default 0 when there is exactly one, required otherwise); the
resolved global index is delegated to the Merkle builder. -/
def get_l2_to_l1_log_proof_model (s : HashScheme) (D : Nat) (st : Storage)
    (txHash : H256) (index : Option Nat) :
    Except Web3Error (Option L2ToL1LogProof) :=
  match st.getBatchOfTx txHash with
  | none => .ok none
  | some batch =>
    let logs := st.getLogsForBatch batch
    let idxs := st.getLogIndicesForTx txHash
    match index with
    | some i =>
      match idxs.get? i with
      | some gidx => (proveAt s D logs gidx).map some
      | none => .error .indexOutOfRange
    | none =>
      match idxs with
      | [] => .ok none
      | [gidx] => (proveAt s D logs gidx).map some
      | _ => .error .ambiguousLog

/-- Modelled from the spec: the binary search of the fee estimator
(section 4.4 step 3) over the gas interval, with a hard iteration cap
(the fuel) and a unit convergence threshold.  `sim g = true` means the
simulation succeeds at gas limit `g`.  All quantities are natural
numbers: no floating point enters the search. -/
def binSearch (sim : Nat → Bool) : Nat → Nat → Nat → Nat
  | 0, _, hi => hi
  | fuel + 1, lo, hi =>
    if hi ≤ lo + 1 then hi
    else
      let mid := (lo + hi) / 2
      if sim mid then binSearch sim fuel lo mid
      else binSearch sim fuel mid hi

/-- Modelled from the spec: the configuration and oracle signals the
fee estimator consumes (sections 4.4 and 6): intrinsic floor, maximum
gas per transaction, iteration cap, the safety multiplier as an exact
rational `multiplierNum / multiplierDen`, the layer-1 pubdata overhead
term, the gas-per-pubdata price, and the gas price oracle's current
base and priority signals. -/
structure EstimationConfig where
  intrinsicFloor : Nat
  maxGasPerTx : Nat
  searchIterations : Nat
  multiplierNum : Nat
  multiplierDen : Nat
  pubdataOverhead : Nat
  gasPerPubdata : U64
  basePrice : U256
  priorityPrice : U256

/-- Modelled from the spec: the gas limit the estimator derives before
the overflow check — the minimal gas found by the search, scaled by the
safety multiplier, plus the pubdata overhead (section 4.4 steps 3-5). -/
def scaledGas (cfg : EstimationConfig) (minimal : Nat) : Nat :=
  minimal * cfg.multiplierNum / cfg.multiplierDen + cfg.pubdataOverhead

/-- Modelled from the spec: `estimateFee(txRequest) -> FeeEstimate`
(section 4.4).  Probe the upper bound first — failure there is
`ExecutionReverted`; otherwise binary-search the minimal viable gas
limit, apply the safety multiplier and pubdata overhead, fail closed
with `GasOverflow` when the result does not fit the unsigned 64-bit
gas-limit field, and take the fee-per-gas fields from the oracle
signals. -/
def estimateFeeSpec (sim : Nat → Bool) (cfg : EstimationConfig) : Except Web3Error Fee :=
  if sim cfg.maxGasPerTx = false then
    .error (.executionReverted ("execution reverted at max gas"))
  else
    let minimal := binSearch sim cfg.searchIterations cfg.intrinsicFloor cfg.maxGasPerTx
    if h : scaledGas cfg minimal < 2 ^ 64 then
      .ok ⟨⟨scaledGas cfg minimal, h⟩, cfg.basePrice, cfg.priorityPrice, cfg.gasPerPubdata⟩
    else .error .gasOverflow

/-- Modelled from the spec: `estimateGasL1ToL2(txRequest) -> gas`
(section 4.4): the same search against the layer-1-originated
simulation mode, a distinct intrinsic floor, no pubdata overhead term;
the result is a 256-bit quantity, overflow of the multiplier fails
closed with `GasOverflow`. -/
def estimateGasL1ToL2Spec (sim : Nat → Bool) (cfg : EstimationConfig) :
    Except Web3Error U256 :=
  if sim cfg.maxGasPerTx = false then
    .error (.executionReverted ("execution reverted at max gas"))
  else
    let minimal := binSearch sim cfg.searchIterations cfg.intrinsicFloor cfg.maxGasPerTx
    if h : minimal * cfg.multiplierNum / cfg.multiplierDen < 2 ^ 256 then
      .ok ⟨minimal * cfg.multiplierNum / cfg.multiplierDen, h⟩
    else .error .gasOverflow

/-- Relational (small-step) semantics of the binary search: every run
the spec's step 3 admits.  `BinSearchRel sim fuel lo hi r` holds when a
search over `[lo, hi]` with the given fuel can return `r`. -/
inductive BinSearchRel (sim : Nat → Bool) : Nat → Nat → Nat → Nat → Prop
  | fuelOut (lo hi : Nat) : BinSearchRel sim 0 lo hi hi
  | stop (fuel lo hi : Nat) : hi ≤ lo + 1 → BinSearchRel sim (fuel + 1) lo hi hi
  | goLow (fuel lo hi r : Nat) : lo + 1 < hi → sim ((lo + hi) / 2) = true →
      BinSearchRel sim fuel lo ((lo + hi) / 2) r → BinSearchRel sim (fuel + 1) lo hi r
  | goHigh (fuel lo hi r : Nat) : lo + 1 < hi → sim ((lo + hi) / 2) = false →
      BinSearchRel sim fuel ((lo + hi) / 2) hi r → BinSearchRel sim (fuel + 1) lo hi r

/-- Relational semantics of `estimateFee` (section 4.4): every outcome
one call may produce, given the simulator `sim` (deterministic for the
fixed underlying state, section 4.3) and the configuration. -/
inductive EstimateRel (sim : Nat → Bool) (cfg : EstimationConfig) :
    Except Web3Error Fee → Prop
  | reverted : sim cfg.maxGasPerTx = false →
      EstimateRel sim cfg (.error (.executionReverted ("execution reverted at max gas")))
  | overflow (m : Nat) : sim cfg.maxGasPerTx = true →
      BinSearchRel sim cfg.searchIterations cfg.intrinsicFloor cfg.maxGasPerTx m →
      ¬ scaledGas cfg m < 2 ^ 64 →
      EstimateRel sim cfg (.error .gasOverflow)
  | success (m : Nat) (h : scaledGas cfg m < 2 ^ 64) : sim cfg.maxGasPerTx = true →
      BinSearchRel sim cfg.searchIterations cfg.intrinsicFloor cfg.maxGasPerTx m →
      EstimateRel sim cfg
        (.ok ⟨⟨scaledGas cfg m, h⟩, cfg.basePrice, cfg.priorityPrice, cfg.gasPerPubdata⟩)

/-- Relational semantics of `estimateGasL1ToL2` (section 4.4): same
search core, distinct floor, no pubdata overhead. -/
inductive EstimateL1L2Rel (sim : Nat → Bool) (cfg : EstimationConfig) :
    Except Web3Error U256 → Prop
  | reverted : sim cfg.maxGasPerTx = false →
      EstimateL1L2Rel sim cfg (.error (.executionReverted ("execution reverted at max gas")))
  | overflow (m : Nat) : sim cfg.maxGasPerTx = true →
      BinSearchRel sim cfg.searchIterations cfg.intrinsicFloor cfg.maxGasPerTx m →
      ¬ m * cfg.multiplierNum / cfg.multiplierDen < 2 ^ 256 →
      EstimateL1L2Rel sim cfg (.error .gasOverflow)
  | success (m : Nat) (h : m * cfg.multiplierNum / cfg.multiplierDen < 2 ^ 256) :
      sim cfg.maxGasPerTx = true →
      BinSearchRel sim cfg.searchIterations cfg.intrinsicFloor cfg.maxGasPerTx m →
      EstimateL1L2Rel sim cfg (.ok ⟨m * cfg.multiplierNum / cfg.multiplierDen, h⟩)

/-- The outcome discipline of the RPC wrapper layer: a call either
succeeds, or fails with the JSON-RPC image of a typed `Web3Error`;
there is no third outcome. -/
def typedOutcome {α : Type} (r : RpcResult α) : Prop :=
  (∃ v, r = .ok v) ∨ ∃ e : Web3Error, r = .error (into_jsrpc_error e)

/-- Stated from the claim under scrutiny: the RPC-layer image of a
fallible impl result — the success value unchanged, the failure mapped
through `into_jsrpc_error`.  Compared against the wrappers of the
source file. -/
def wrapFallible {α : Type} (r : Except Web3Error α) : RpcResult α :=
  r.mapError into_jsrpc_error

/-- Stated from the claim under scrutiny: the RPC-layer image of an
infallible impl result. -/
def wrapInfallible {α : Type} (v : α) : RpcResult α :=
  .ok v

/-- A concrete namespace instance used by the concrete witnesses. -/
def sampleNamespace : ZksNamespace where
  estimate_fee_impl := fun _ => .error .internalError
  estimate_l1_to_l2_gas_impl := fun _ => .ok ⟨0, by norm_num⟩
  get_main_contract_impl := 10
  get_miniblock_range_impl := fun _ => .ok none
  get_testnet_paymaster_impl := none
  get_bridge_contracts_impl := ⟨1, 2⟩
  l1_chain_id_impl := ⟨9, by norm_num⟩
  get_confirmed_tokens_impl := fun _ _ => .ok []
  get_token_price_impl := fun _ => .ok ⟨1, 0⟩
  get_all_account_balances_impl := fun _ => .ok []
  get_l2_to_l1_msg_proof_impl := fun _ _ _ _ => .ok none
  get_l2_to_l1_log_proof_impl := fun _ _ => .ok none
  get_l1_batch_number_impl := .ok ⟨3, by norm_num⟩
  get_block_details_impl := fun _ => .ok none
  get_transaction_details_impl := fun _ => .ok none
  set_known_bytecode_impl := fun _ => true
  get_raw_block_transactions_impl := fun _ => .ok []
  get_l1_batch_details_impl := fun _ => .ok none
  get_bytecode_by_hash_impl := fun _ => none
  get_l1_gas_price_impl := ⟨7, by norm_num⟩

/-- A concrete call request. -/
def sampleRequest : CallRequest :=
  ⟨none, none, [], none⟩

/-- A 256-bit gas value that does not fit in 64 bits. -/
def bigGas : U256 :=
  ⟨2 ^ 64, by norm_num⟩

/-- A namespace whose layer-1-to-layer-2 gas impl reports an estimate
that exceeds the unsigned 64-bit range (legal for the declared `U256`
result type of `zks_estimateGasL1ToL2`). -/
def bigGasNamespace : ZksNamespace :=
  { sampleNamespace with estimate_l1_to_l2_gas_impl := fun _ => .ok bigGas }

/-- A concrete hash scheme for evaluating the Merkle development. -/
def sampleScheme : HashScheme where
  leafHash := fun l =>
    1 + l.sender + 3 * l.key + 5 * l.value + 7 * l.shardId + 11 * l.txNumberInBlock +
      (if l.isService then 13 else 0)
  nodeHash := fun a b => 17 + 2 * a + 5 * b
  zeroHash := 0

/-- A concrete batch of three logs. -/
def sampleLogs : List Log :=
  [⟨1, 2, 3, false, 0, 0⟩, ⟨4, 5, 6, true, 0, 1⟩, ⟨7, 8, 9, false, 1, 2⟩]

/-- A storage view in which nothing is settled yet. -/
def emptyStorage : Storage where
  getBatchContaining := fun _ => none
  getLogsForBatch := fun _ => []
  getBatchOfTx := fun _ => none
  getLogIndicesForTx := fun _ => []
  logBlock := fun _ _ => ⟨0⟩

/-- A namespace whose proof impls are the spec-modelled log proof
service over `emptyStorage`. -/
def proofNamespace : ZksNamespace :=
  { sampleNamespace with
    get_l2_to_l1_msg_proof_impl := get_l2_to_l1_msg_proof_model sampleScheme 2 emptyStorage
    get_l2_to_l1_log_proof_impl := get_l2_to_l1_log_proof_model sampleScheme 2 emptyStorage }

/-- A simulator that succeeds at every gas limit. -/
def simAlways : Nat → Bool :=
  fun _ => true

/-- A small concrete estimation configuration. -/
def cfgSmall : EstimationConfig :=
  ⟨0, 2, 1, 1, 1, 0, ⟨0, by norm_num⟩, ⟨0, by norm_num⟩, ⟨0, by norm_num⟩⟩

/-- A configuration whose minimal gas already saturates the unsigned
64-bit gas-limit field, so applying the (identity) multiplier
overflows it. -/
def cfgOverflowFee : EstimationConfig :=
  ⟨2 ^ 64, 2 ^ 64, 1, 1, 1, 0, ⟨0, by norm_num⟩, ⟨0, by norm_num⟩, ⟨0, by norm_num⟩⟩

/-- A configuration whose minimal gas saturates the 256-bit range of
the layer-1-to-layer-2 estimate. -/
def cfgOverflowL1 : EstimationConfig :=
  ⟨2 ^ 256, 2 ^ 256, 1, 1, 1, 0, ⟨0, by norm_num⟩, ⟨0, by norm_num⟩, ⟨0, by norm_num⟩⟩

/-- The sibling path always has exactly one hash per tree level. -/
theorem proofPath_length (s : HashScheme) :
    ∀ (d : Nat) (f : Nat → Hash) (i : Nat), (proofPath s d f i).length = d := by
  intro d
  induction d with
  | zero => intro f i; rfl
  | succ d ih =>
    intro f i
    by_cases h : i < 2 ^ d <;> simp [proofPath, h, ih]

/-- Appending one sibling at the top of the path hashes the recomputed
subtree root with it, on the side selected by the corresponding index
bit. -/
theorem verifyPath_append (s : HashScheme) (p : List Hash) :
    ∀ (leaf x : Hash) (i : Nat),
      verifyPath s leaf (p ++ [x]) i =
        if i / 2 ^ p.length % 2 = 0 then s.nodeHash (verifyPath s leaf p i) x
        else s.nodeHash x (verifyPath s leaf p i) := by
  induction p with
  | nil =>
    intro leaf x i
    simp [verifyPath]
  | cons sib rest ih =>
    intro leaf x i
    have hdiv : i / 2 ^ (rest.length + 1) = i / 2 / 2 ^ rest.length := by
      rw [Nat.div_div_eq_div_mul, pow_succ, Nat.mul_comm]
    by_cases h : i % 2 = 0 <;>
      simp [List.cons_append, verifyPath, h, ih, List.length_cons, hdiv]

/-- The recomputation consumes only the low `p.length` index bits. -/
theorem verifyPath_congr (s : HashScheme) (p : List Hash) :
    ∀ (leaf : Hash) (i j : Nat), i % 2 ^ p.length = j % 2 ^ p.length →
      verifyPath s leaf p i = verifyPath s leaf p j := by
  induction p with
  | nil => intro leaf i j _; rfl
  | cons sib rest ih =>
    intro leaf i j h
    have hlow : i % 2 = j % 2 := by
      have hi2 : i % 2 ^ (rest.length + 1) % 2 = i % 2 :=
        Nat.mod_mod_of_dvd i (dvd_pow_self 2 (Nat.succ_ne_zero rest.length))
      have hj2 : j % 2 ^ (rest.length + 1) % 2 = j % 2 :=
        Nat.mod_mod_of_dvd j (dvd_pow_self 2 (Nat.succ_ne_zero rest.length))
      rw [← hi2, ← hj2, List.length_cons] at *
      rw [h]
    have hhigh : i / 2 % 2 ^ rest.length = j / 2 % 2 ^ rest.length := by
      rw [← Nat.mod_mul_right_div_self, ← Nat.mod_mul_right_div_self]
      rw [show (2 : Nat) * 2 ^ rest.length = 2 ^ (rest.length + 1) by
        rw [pow_succ, Nat.mul_comm]]
      rw [List.length_cons] at h
      rw [h]
    by_cases hm : i % 2 = 0
    · have hj : j % 2 = 0 := by omega
      simp [verifyPath, hm, hj, ih _ _ _ hhigh]
    · have hj : ¬ j % 2 = 0 := by omega
      simp [verifyPath, hm, hj, ih _ _ _ hhigh]

/-- Core Merkle round trip on the padded tree: recomputing from leaf
`i` along its sibling path reproduces the subtree root. -/
theorem verifyPath_proofPath (s : HashScheme) :
    ∀ (d : Nat) (f : Nat → Hash) (i : Nat), i < 2 ^ d →
      verifyPath s (f i) (proofPath s d f i) i = subRoot s d f := by
  intro d
  induction d with
  | zero =>
    intro f i hi
    have h0 : i = 0 := by
      have h1 : (2 : Nat) ^ 0 = 1 := rfl
      omega
    subst h0
    rfl
  | succ d ih =>
    intro f i hi
    have hsplit : 2 ^ (d + 1) = 2 ^ d + 2 ^ d := by
      rw [pow_succ]; omega
    by_cases hlt : i < 2 ^ d
    · rw [show proofPath s (d + 1) f i =
          proofPath s d f i ++ [subRoot s d (fun j => f (j + 2 ^ d))] by
        simp [proofPath, hlt]]
      rw [verifyPath_append, proofPath_length]
      rw [Nat.div_eq_of_lt hlt]
      simp only [Nat.zero_mod, if_pos rfl]
      rw [ih f i hlt]
      rfl
    · have hge : 2 ^ d ≤ i := Nat.le_of_not_lt hlt
      have hsub : i - 2 ^ d < 2 ^ d := by omega
      rw [show proofPath s (d + 1) f i =
          proofPath s d (fun j => f (j + 2 ^ d)) (i - 2 ^ d) ++ [subRoot s d f] by
        simp [proofPath, hlt]]
      rw [verifyPath_append, proofPath_length]
      have hone : i / 2 ^ d = 1 := Nat.div_eq_of_lt_le (by omega) (by omega)
      rw [hone]
      rw [if_neg (by decide)]
      have hmod : i % 2 ^ (proofPath s d (fun j => f (j + 2 ^ d)) (i - 2 ^ d)).length =
          (i - 2 ^ d) % 2 ^ (proofPath s d (fun j => f (j + 2 ^ d)) (i - 2 ^ d)).length := by
        rw [proofPath_length, Nat.mod_eq_sub_mod hge]
      rw [verifyPath_congr s _ _ i (i - 2 ^ d) hmod]
      have hfi : f i = (fun j => f (j + 2 ^ d)) (i - 2 ^ d) := by
        simp [Nat.sub_add_cancel hge]
      rw [hfi, ih (fun j => f (j + 2 ^ d)) (i - 2 ^ d) hsub]
      rfl

/-- C6.  Merkle round-trip: for every non-empty log sequence `L` and
every valid index `i < length(L)` (within the fixed tree capacity
`2 ^ D`), `proveAt` succeeds, and recomputing the root from the leaf
hash and the returned sibling path — `verify(hash(L[i]), proveAt(L,i),
i)` — equals `build(L)`, so every proof the service returns verifies
against the batch root. -/
theorem merkle_round_trip (s : HashScheme) (D : Nat) (L : List Log) (i : Nat)
    (hne : L ≠ []) (hi : i < L.length) (hD : L.length ≤ 2 ^ D) :
    proveAt s D L i = .ok ⟨build s D L, proofPath s D (leafAt s L) i, i⟩ ∧
    verifyPath s (s.leafHash (L.get ⟨i, hi⟩)) (proofPath s D (leafAt s L) i) i =
      build s D L := by
  constructor
  · have hemp : L.isEmpty = false := by
      cases L with
      | nil => exact absurd rfl hne
      | cons a t => rfl
    simp [proveAt, hemp, hi]
  · have hleaf : leafAt s L i = s.leafHash (L.get ⟨i, hi⟩) := dif_pos hi
    rw [← hleaf]
    exact verifyPath_proofPath s D (leafAt s L) i (lt_of_lt_of_le hi hD)

/-- C6 witness: the round trip evaluated on the concrete three-log
batch at index 1 with tree depth 2. -/
theorem merkle_round_trip_witness :
    proveAt sampleScheme 2 sampleLogs 1 =
      .ok ⟨build sampleScheme 2 sampleLogs,
        proofPath sampleScheme 2 (leafAt sampleScheme sampleLogs) 1, 1⟩ ∧
    verifyPath sampleScheme (sampleScheme.leafHash (sampleLogs.get ⟨1, by decide⟩))
      (proofPath sampleScheme 2 (leafAt sampleScheme sampleLogs) 1) 1 =
      build sampleScheme 2 sampleLogs :=
  merkle_round_trip sampleScheme 2 sampleLogs 1 (by decide) (by decide) (by decide)

/-- The binary search relation is deterministic: a given simulator,
fuel and interval admit exactly one result. -/
theorem binSearchRel_det (sim : Nat → Bool) :
    ∀ (fuel lo hi r₁ r₂ : Nat), BinSearchRel sim fuel lo hi r₁ →
      BinSearchRel sim fuel lo hi r₂ → r₁ = r₂ := by
  intro fuel
  induction fuel with
  | zero =>
    intro lo hi r₁ r₂ h₁ h₂
    cases h₁
    cases h₂
    rfl
  | succ fuel ih =>
    intro lo hi r₁ r₂ h₁ h₂
    cases h₁ with
    | stop _ _ _ hle =>
      cases h₂ with
      | stop => rfl
      | goLow _ _ _ _ hlt => omega
      | goHigh _ _ _ _ hlt => omega
    | goLow _ _ _ _ hlt hsim hrec =>
      cases h₂ with
      | stop _ _ _ hle => omega
      | goLow _ _ _ _ _ _ hrec₂ => exact ih _ _ _ _ hrec hrec₂
      | goHigh _ _ _ _ _ hsim₂ _ => rw [hsim] at hsim₂; cases hsim₂
    | goHigh _ _ _ _ hlt hsim hrec =>
      cases h₂ with
      | stop _ _ _ hle => omega
      | goLow _ _ _ _ _ hsim₂ _ => rw [hsim] at hsim₂; cases hsim₂
      | goHigh _ _ _ _ _ _ hrec₂ => exact ih _ _ _ _ hrec hrec₂

/-- The binary search function realizes the search relation. -/
theorem binSearchRel_of_binSearch (sim : Nat → Bool) :
    ∀ (fuel lo hi : Nat), BinSearchRel sim fuel lo hi (binSearch sim fuel lo hi) := by
  intro fuel
  induction fuel with
  | zero => intro lo hi; exact .fuelOut lo hi
  | succ fuel ih =>
    intro lo hi
    by_cases hle : hi ≤ lo + 1
    · rw [show binSearch sim (fuel + 1) lo hi = hi by simp [binSearch, hle]]
      exact .stop fuel lo hi hle
    · by_cases hsim : sim ((lo + hi) / 2) = true
      · rw [show binSearch sim (fuel + 1) lo hi =
            binSearch sim fuel lo ((lo + hi) / 2) by simp [binSearch, hle, hsim]]
        exact .goLow fuel lo hi _ (by omega) hsim (ih lo ((lo + hi) / 2))
      · have hsim2 : sim ((lo + hi) / 2) = false := by
          revert hsim
          cases sim ((lo + hi) / 2) <;> simp
        rw [show binSearch sim (fuel + 1) lo hi =
            binSearch sim fuel ((lo + hi) / 2) hi by simp [binSearch, hle, hsim2]]
        exact .goHigh fuel lo hi _ (by omega) hsim2 (ih ((lo + hi) / 2) hi)

/-- The fee-estimation relation is deterministic. -/
theorem estimateRel_det (sim : Nat → Bool) (cfg : EstimationConfig) :
    ∀ (r₁ r₂ : Except Web3Error Fee), EstimateRel sim cfg r₁ →
      EstimateRel sim cfg r₂ → r₁ = r₂ := by
  intro r₁ r₂ h₁ h₂
  cases h₁ with
  | reverted hrev =>
    cases h₂ with
    | reverted _ => rfl
    | overflow _ htrue _ _ => rw [hrev] at htrue; cases htrue
    | success _ _ htrue _ => rw [hrev] at htrue; cases htrue
  | overflow m htrue hsearch hover =>
    cases h₂ with
    | reverted hrev => rw [hrev] at htrue; cases htrue
    | overflow _ _ _ _ => rfl
    | success m₂ h₂ _ hsearch₂ =>
      have hm : m = m₂ := binSearchRel_det sim _ _ _ _ _ hsearch hsearch₂
      subst hm
      exact absurd h₂ hover
  | success m h htrue hsearch =>
    cases h₂ with
    | reverted hrev => rw [hrev] at htrue; cases htrue
    | overflow m₂ _ hsearch₂ hover =>
      have hm : m = m₂ := binSearchRel_det sim _ _ _ _ _ hsearch hsearch₂
      subst hm
      exact absurd h hover
    | success m₂ h₂ _ hsearch₂ =>
      have hm : m = m₂ := binSearchRel_det sim _ _ _ _ _ hsearch hsearch₂
      subst hm
      rfl

/-- The layer-1-to-layer-2 estimation relation is deterministic. -/
theorem estimateL1L2Rel_det (sim : Nat → Bool) (cfg : EstimationConfig) :
    ∀ (r₁ r₂ : Except Web3Error U256), EstimateL1L2Rel sim cfg r₁ →
      EstimateL1L2Rel sim cfg r₂ → r₁ = r₂ := by
  intro r₁ r₂ h₁ h₂
  cases h₁ with
  | reverted hrev =>
    cases h₂ with
    | reverted _ => rfl
    | overflow _ htrue _ _ => rw [hrev] at htrue; cases htrue
    | success _ _ htrue _ => rw [hrev] at htrue; cases htrue
  | overflow m htrue hsearch hover =>
    cases h₂ with
    | reverted hrev => rw [hrev] at htrue; cases htrue
    | overflow _ _ _ _ => rfl
    | success m₂ h₂ _ hsearch₂ =>
      have hm : m = m₂ := binSearchRel_det sim _ _ _ _ _ hsearch hsearch₂
      subst hm
      exact absurd h₂ hover
  | success m h htrue hsearch =>
    cases h₂ with
    | reverted hrev => rw [hrev] at htrue; cases htrue
    | overflow m₂ _ hsearch₂ hover =>
      have hm : m = m₂ := binSearchRel_det sim _ _ _ _ _ hsearch hsearch₂
      subst hm
      exact absurd h hover
    | success m₂ h₂ _ hsearch₂ =>
      have hm : m = m₂ := binSearchRel_det sim _ _ _ _ _ hsearch hsearch₂
      subst hm
      rfl

/-- The fee-estimation function realizes the estimation relation. -/
theorem estimateRel_of_estimateFeeSpec (sim : Nat → Bool) (cfg : EstimationConfig) :
    EstimateRel sim cfg (estimateFeeSpec sim cfg) := by
  by_cases hrev : sim cfg.maxGasPerTx = false
  · rw [show estimateFeeSpec sim cfg =
        .error (.executionReverted ("execution reverted at max gas")) by
      simp [estimateFeeSpec, hrev]]
    exact .reverted hrev
  · have htrue : sim cfg.maxGasPerTx = true := by
      revert hrev
      cases sim cfg.maxGasPerTx <;> simp
    by_cases hfit :
        scaledGas cfg (binSearch sim cfg.searchIterations cfg.intrinsicFloor cfg.maxGasPerTx)
          < 2 ^ 64
    · rw [show estimateFeeSpec sim cfg =
          .ok ⟨⟨scaledGas cfg (binSearch sim cfg.searchIterations cfg.intrinsicFloor
            cfg.maxGasPerTx), hfit⟩, cfg.basePrice, cfg.priorityPrice, cfg.gasPerPubdata⟩ by
        simp only [estimateFeeSpec]
        rw [if_neg (by simp [htrue]), dif_pos hfit]]
      exact .success _ hfit htrue (binSearchRel_of_binSearch sim _ _ _)
    · rw [show estimateFeeSpec sim cfg = .error .gasOverflow by
        simp only [estimateFeeSpec]
        rw [if_neg (by simp [htrue]), dif_neg hfit]]
      exact .overflow _ htrue (binSearchRel_of_binSearch sim _ _ _) hfit

/-- The layer-1-to-layer-2 estimation function realizes its relation. -/
theorem estimateL1L2Rel_of_spec (sim : Nat → Bool) (cfg : EstimationConfig) :
    EstimateL1L2Rel sim cfg (estimateGasL1ToL2Spec sim cfg) := by
  by_cases hrev : sim cfg.maxGasPerTx = false
  · rw [show estimateGasL1ToL2Spec sim cfg =
        .error (.executionReverted ("execution reverted at max gas")) by
      simp [estimateGasL1ToL2Spec, hrev]]
    exact .reverted hrev
  · have htrue : sim cfg.maxGasPerTx = true := by
      revert hrev
      cases sim cfg.maxGasPerTx <;> simp
    by_cases hfit :
        binSearch sim cfg.searchIterations cfg.intrinsicFloor cfg.maxGasPerTx *
          cfg.multiplierNum / cfg.multiplierDen < 2 ^ 256
    · rw [show estimateGasL1ToL2Spec sim cfg =
          .ok ⟨binSearch sim cfg.searchIterations cfg.intrinsicFloor cfg.maxGasPerTx *
            cfg.multiplierNum / cfg.multiplierDen, hfit⟩ by
        simp only [estimateGasL1ToL2Spec]
        rw [if_neg (by simp [htrue]), dif_pos hfit]]
      exact .success _ hfit htrue (binSearchRel_of_binSearch sim _ _ _)
    · rw [show estimateGasL1ToL2Spec sim cfg = .error .gasOverflow by
        simp only [estimateGasL1ToL2Spec]
        rw [if_neg (by simp [htrue]), dif_neg hfit]]
      exact .overflow _ htrue (binSearchRel_of_binSearch sim _ _ _) hfit

/-- A fallible impl result mapped through `into_jsrpc_error` is either
a success or the image of a typed `Web3Error`. -/
theorem typedOutcome_mapError {α : Type} (r : Except Web3Error α) :
    typedOutcome (r.mapError into_jsrpc_error) := by
  cases r with
  | ok v => exact .inl ⟨v, rfl⟩
  | error e => exact .inr ⟨e, rfl⟩

/-- An infallible wrapper result is a success. -/
theorem typedOutcome_ok {α : Type} (v : α) : typedOutcome (α := α) (.ok v) :=
  .inl ⟨v, rfl⟩

/-- C1.  For both resolution modes of the log proof service — by
transaction hash with optional index, and by block, sender and message
with optional position — when the requested block or transaction does
not exist or is not yet included in a settled batch (the storage lookup
yields `none`), the RPC call returns the successful absence value
`Ok none`, never an error. -/
theorem proof_absence_returns_none (s : HashScheme) (D : Nat) (st : Storage)
    (ns : ZksNamespace)
    (hmsg : ns.get_l2_to_l1_msg_proof_impl = get_l2_to_l1_msg_proof_model s D st)
    (hlog : ns.get_l2_to_l1_log_proof_impl = get_l2_to_l1_log_proof_model s D st)
    (block : MiniblockNumber) (sender : Address) (msg : H256) (pos : Option Nat)
    (tx : H256) (idx : Option Nat) :
    (st.getBatchContaining block = none →
      ns.get_l2_to_l1_msg_proof block sender msg pos = .ok none) ∧
    (st.getBatchOfTx tx = none →
      ns.get_l2_to_l1_log_proof tx idx = .ok none) := by
  constructor
  · intro habs
    simp [ZksNamespace.get_l2_to_l1_msg_proof, hmsg, get_l2_to_l1_msg_proof_model, habs,
      Except.mapError]
  · intro habs
    simp [ZksNamespace.get_l2_to_l1_log_proof, hlog, get_l2_to_l1_log_proof_model, habs,
      Except.mapError]

/-- C1 witness: both calls evaluated on a namespace over a storage view
in which nothing is settled. -/
theorem proof_absence_returns_none_witness :
    proofNamespace.get_l2_to_l1_msg_proof ⟨5⟩ 1 2 none = .ok none ∧
    proofNamespace.get_l2_to_l1_log_proof 3 (some 0) = .ok none :=
  ⟨(proof_absence_returns_none sampleScheme 2 emptyStorage proofNamespace rfl rfl
      ⟨5⟩ 1 2 none 3 (some 0)).1 rfl,
   (proof_absence_returns_none sampleScheme 2 emptyStorage proofNamespace rfl rfl
      ⟨5⟩ 1 2 none 3 (some 0)).2 rfl⟩

/-- C2 counterexample: the RPC interface `zks_estimateGasL1ToL2` is
declared with result type `U256` (zks.rs line 30) and passes the impl
estimate through unchanged, so a legal estimate of `2 ^ 64` — outside
the unsigned 64-bit range — is returned as is: the operation does not
return its estimate as a u64. -/
theorem estimate_gas_l1_to_l2_not_u64 :
    bigGasNamespace.estimate_gas_l1_to_l2 sampleRequest = .ok bigGas ∧
    ¬ bigGas.val < 2 ^ 64 := by
  constructor
  · rfl
  · norm_num [bigGas]

/-- C2 as amended: `estimate_gas_l1_to_l2` returns its gas estimate as
an unsigned 256-bit integer (`U256`): every accepted request yields the
impl's estimate unchanged, a value below `2 ^ 256`. -/
theorem estimate_gas_l1_to_l2_returns_u256 (ns : ZksNamespace) (req : CallRequest)
    (v : U256) (h : ns.estimate_l1_to_l2_gas_impl req = .ok v) :
    ns.estimate_gas_l1_to_l2 req = .ok v ∧ v.val < 2 ^ 256 := by
  constructor
  · simp [ZksNamespace.estimate_gas_l1_to_l2, h, Except.mapError]
  · exact v.isLt

/-- C2 witness: the amended claim evaluated on the concrete namespace
whose impl reports an estimate of `2 ^ 64`. -/
theorem estimate_gas_l1_to_l2_returns_u256_witness :
    bigGasNamespace.estimate_gas_l1_to_l2 sampleRequest = .ok bigGas ∧
    bigGas.val < 2 ^ 256 :=
  estimate_gas_l1_to_l2_returns_u256 bigGasNamespace sampleRequest bigGas rfl

/-- C3.  For every call request, `estimate_fee` returns either a
complete `Fee` value or the JSON-RPC image of a typed `Web3Error`;
there is no third outcome at the public interface. -/
theorem estimate_fee_ok_or_typed_error (ns : ZksNamespace) (req : CallRequest) :
    (∃ fee : Fee, ns.estimate_fee req = .ok fee) ∨
    (∃ e : Web3Error, ns.estimate_fee req = .error (into_jsrpc_error e)) := by
  cases h : ns.estimate_fee_impl req with
  | ok v =>
    exact .inl ⟨v, by simp [ZksNamespace.estimate_fee, h, Except.mapError]⟩
  | error e =>
    exact .inr ⟨e, by simp [ZksNamespace.estimate_fee, h, Except.mapError]⟩

/-- C4.  Every public operation of the namespace propagates failures as
typed result values: for every input, each of the twenty RPC methods
returns either a success or the `into_jsrpc_error` image of a typed
`Web3Error` — never any other failure.  (The wrappers are total
functions: no panic path exists at this layer.) -/
theorem all_errors_typed (ns : ZksNamespace) (req req2 : CallRequest)
    (batch batch2 : L1BatchNumber) (fromIdx limit : Nat) (tokenAddress addr : Address)
    (block blockNum blockNum2 : MiniblockNumber) (sender : Address)
    (msg tx hash bhash : H256) (pos idx : Option Nat) (bc : Bytes) :
    typedOutcome (ns.estimate_fee req) ∧
    typedOutcome (ns.estimate_gas_l1_to_l2 req2) ∧
    typedOutcome ns.get_main_contract ∧
    typedOutcome (ns.get_miniblock_range batch) ∧
    typedOutcome ns.get_testnet_paymaster ∧
    typedOutcome ns.get_bridge_contracts ∧
    typedOutcome ns.l1_chain_id ∧
    typedOutcome (ns.get_confirmed_tokens fromIdx limit) ∧
    typedOutcome (ns.get_token_price tokenAddress) ∧
    typedOutcome (ns.get_all_account_balances addr) ∧
    typedOutcome (ns.get_l2_to_l1_msg_proof block sender msg pos) ∧
    typedOutcome (ns.get_l2_to_l1_log_proof tx idx) ∧
    typedOutcome ns.get_l1_batch_number ∧
    typedOutcome (ns.get_block_details blockNum) ∧
    typedOutcome (ns.get_transaction_details hash) ∧
    typedOutcome (ns.set_known_bytecode bc) ∧
    typedOutcome (ns.get_raw_block_transactions blockNum2) ∧
    typedOutcome (ns.get_l1_batch_details batch2) ∧
    typedOutcome (ns.get_bytecode_by_hash bhash) ∧
    typedOutcome ns.get_l1_gas_price :=
  ⟨typedOutcome_mapError _, typedOutcome_mapError _, typedOutcome_ok _,
   typedOutcome_mapError _, typedOutcome_ok _, typedOutcome_ok _, typedOutcome_ok _,
   typedOutcome_mapError _, typedOutcome_mapError _, typedOutcome_mapError _,
   typedOutcome_mapError _, typedOutcome_mapError _, typedOutcome_mapError _,
   typedOutcome_mapError _, typedOutcome_mapError _, .inr ⟨.notImplemented, rfl⟩,
   typedOutcome_mapError _, typedOutcome_mapError _, typedOutcome_ok _,
   typedOutcome_ok _⟩

/-- C5.  Fee and gas estimation is deterministic: over the relational
semantics of the search (driven by a simulator that is a fixed function
of the gas limit, i.e. identical underlying state), any two outcomes of
`estimateFee` coincide, and likewise for `estimateGasL1ToL2`. -/
theorem estimation_deterministic (sim : Nat → Bool) (cfg : EstimationConfig) :
    (∀ r₁ r₂ : Except Web3Error Fee,
      EstimateRel sim cfg r₁ → EstimateRel sim cfg r₂ → r₁ = r₂) ∧
    (∀ g₁ g₂ : Except Web3Error U256,
      EstimateL1L2Rel sim cfg g₁ → EstimateL1L2Rel sim cfg g₂ → g₁ = g₂) :=
  ⟨estimateRel_det sim cfg, estimateL1L2Rel_det sim cfg⟩

/-- C5 witness: the determinism theorem applied to two runs of the
estimator on a concrete simulator and configuration. -/
theorem estimation_deterministic_witness :
    EstimateRel simAlways cfgSmall (estimateFeeSpec simAlways cfgSmall) ∧
    EstimateL1L2Rel simAlways cfgSmall (estimateGasL1ToL2Spec simAlways cfgSmall) ∧
    estimateFeeSpec simAlways cfgSmall = estimateFeeSpec simAlways cfgSmall ∧
    estimateGasL1ToL2Spec simAlways cfgSmall = estimateGasL1ToL2Spec simAlways cfgSmall :=
  ⟨estimateRel_of_estimateFeeSpec simAlways cfgSmall,
   estimateL1L2Rel_of_spec simAlways cfgSmall,
   (estimation_deterministic simAlways cfgSmall).1 _ _
     (estimateRel_of_estimateFeeSpec simAlways cfgSmall)
     (estimateRel_of_estimateFeeSpec simAlways cfgSmall),
   (estimation_deterministic simAlways cfgSmall).2 _ _
     (estimateL1L2Rel_of_spec simAlways cfgSmall)
     (estimateL1L2Rel_of_spec simAlways cfgSmall)⟩

/-- C7.  All gas and fee quantities in the estimation model are
unsigned integers (naturals and bounded naturals; no floating point
appears in any definition), and whenever applying the safety multiplier
or overhead would overflow the result range, the request fails closed
with `GasOverflow` instead of returning a wrapped success value. -/
theorem gas_overflow_fails_closed (sim : Nat → Bool) (cfg : EstimationConfig) :
    (sim cfg.maxGasPerTx = true →
      ¬ scaledGas cfg (binSearch sim cfg.searchIterations cfg.intrinsicFloor
          cfg.maxGasPerTx) < 2 ^ 64 →
      estimateFeeSpec sim cfg = .error .gasOverflow ∧
        ∀ fee : Fee, estimateFeeSpec sim cfg ≠ .ok fee) ∧
    (sim cfg.maxGasPerTx = true →
      ¬ binSearch sim cfg.searchIterations cfg.intrinsicFloor cfg.maxGasPerTx *
          cfg.multiplierNum / cfg.multiplierDen < 2 ^ 256 →
      estimateGasL1ToL2Spec sim cfg = .error .gasOverflow ∧
        ∀ g : U256, estimateGasL1ToL2Spec sim cfg ≠ .ok g) := by
  constructor
  · intro htrue hover
    have herr : estimateFeeSpec sim cfg = .error .gasOverflow := by
      simp only [estimateFeeSpec]
      rw [if_neg (by simp [htrue]), dif_neg hover]
    exact ⟨herr, fun fee hok => by rw [herr] at hok; cases hok⟩
  · intro htrue hover
    have herr : estimateGasL1ToL2Spec sim cfg = .error .gasOverflow := by
      simp only [estimateGasL1ToL2Spec]
      rw [if_neg (by simp [htrue]), dif_neg hover]
    exact ⟨herr, fun g hok => by rw [herr] at hok; cases hok⟩

/-- C7 witness: overflow evaluated concretely — a minimal gas of
`2 ^ 64` overflows the 64-bit fee gas-limit field, and a minimal gas of
`2 ^ 256` overflows the 256-bit layer-1-to-layer-2 estimate; both fail
closed. -/
theorem gas_overflow_fails_closed_witness :
    (estimateFeeSpec simAlways cfgOverflowFee = .error .gasOverflow ∧
      ∀ fee : Fee, estimateFeeSpec simAlways cfgOverflowFee ≠ .ok fee) ∧
    (estimateGasL1ToL2Spec simAlways cfgOverflowL1 = .error .gasOverflow ∧
      ∀ g : U256, estimateGasL1ToL2Spec simAlways cfgOverflowL1 ≠ .ok g) :=
  ⟨(gas_overflow_fails_closed simAlways cfgOverflowFee).1 rfl (by decide),
   (gas_overflow_fails_closed simAlways cfgOverflowL1).2 rfl (by decide)⟩

/-- C8.  Compiled without the `openzeppelin_tests` feature,
`set_known_bytecode` returns the `NotImplemented` typed error for every
input bytecode and never reports success. -/
theorem set_known_bytecode_not_implemented (ns : ZksNamespace) (bc : Bytes) :
    ns.set_known_bytecode bc = .error (into_jsrpc_error .notImplemented) ∧
    ∀ b : Bool, ns.set_known_bytecode bc ≠ .ok b :=
  ⟨rfl, fun _ h => by cases h⟩

/-- C8 witness: evaluated on a concrete namespace and bytecode. -/
theorem set_known_bytecode_not_implemented_witness :
    sampleNamespace.set_known_bytecode [] = .error (into_jsrpc_error .notImplemented) :=
  (set_known_bytecode_not_implemented sampleNamespace []).1

/-- C9.  The six operations `get_main_contract`, `get_testnet_paymaster`,
`get_bridge_contracts`, `l1_chain_id`, `get_bytecode_by_hash` and
`get_l1_gas_price` are infallible at the RPC layer: for every input
they return `Ok` with the underlying impl's value, hence never an
error. -/
theorem infallible_methods_return_ok (ns : ZksNamespace) (hash : H256) :
    ns.get_main_contract = .ok ns.get_main_contract_impl ∧
    ns.get_testnet_paymaster = .ok ns.get_testnet_paymaster_impl ∧
    ns.get_bridge_contracts = .ok ns.get_bridge_contracts_impl ∧
    ns.l1_chain_id = .ok ns.l1_chain_id_impl ∧
    ns.get_bytecode_by_hash hash = .ok (ns.get_bytecode_by_hash_impl hash) ∧
    ns.get_l1_gas_price = .ok ns.get_l1_gas_price_impl :=
  ⟨rfl, rfl, rfl, rfl, rfl, rfl⟩

/-- C10 counterexample: `set_known_bytecode` is not observationally
equivalent to its impl — with the `openzeppelin_tests` feature off, the
wrapper returns the `NotImplemented` error for every input, not the
(infallible) impl's success value. -/
theorem rpc_impl_equiv_counterexample :
    sampleNamespace.set_known_bytecode [] = .error (into_jsrpc_error .notImplemented) ∧
    sampleNamespace.set_known_bytecode_impl [] = true ∧
    sampleNamespace.set_known_bytecode [] ≠
      .ok (sampleNamespace.set_known_bytecode_impl []) :=
  ⟨rfl, rfl, fun h => by cases h⟩

/-- C10 as amended: every RPC-layer method except `set_known_bytecode`
is observationally equivalent to its `*_impl`: the success value passes
through unchanged and a failure is exactly the impl's `Web3Error`
mapped through `into_jsrpc_error`; `set_known_bytecode` (compiled
without the `openzeppelin_tests` feature) ignores its impl and returns
the `NotImplemented` error for every input. -/
theorem rpc_impl_equiv_amended (ns : ZksNamespace) (req req2 : CallRequest)
    (batch batch2 : L1BatchNumber) (fromIdx limit : Nat) (tokenAddress addr : Address)
    (block blockNum blockNum2 : MiniblockNumber) (sender : Address)
    (msg tx hash bhash : H256) (pos idx : Option Nat) (bc : Bytes) :
    ns.estimate_fee req = wrapFallible (ns.estimate_fee_impl req) ∧
    ns.estimate_gas_l1_to_l2 req2 = wrapFallible (ns.estimate_l1_to_l2_gas_impl req2) ∧
    ns.get_main_contract = wrapInfallible ns.get_main_contract_impl ∧
    ns.get_miniblock_range batch = wrapFallible (ns.get_miniblock_range_impl batch) ∧
    ns.get_testnet_paymaster = wrapInfallible ns.get_testnet_paymaster_impl ∧
    ns.get_bridge_contracts = wrapInfallible ns.get_bridge_contracts_impl ∧
    ns.l1_chain_id = wrapInfallible ns.l1_chain_id_impl ∧
    ns.get_confirmed_tokens fromIdx limit =
      wrapFallible (ns.get_confirmed_tokens_impl fromIdx limit) ∧
    ns.get_token_price tokenAddress =
      wrapFallible (ns.get_token_price_impl tokenAddress) ∧
    ns.get_all_account_balances addr =
      wrapFallible (ns.get_all_account_balances_impl addr) ∧
    ns.get_l2_to_l1_msg_proof block sender msg pos =
      wrapFallible (ns.get_l2_to_l1_msg_proof_impl block sender msg pos) ∧
    ns.get_l2_to_l1_log_proof tx idx =
      wrapFallible (ns.get_l2_to_l1_log_proof_impl tx idx) ∧
    ns.get_l1_batch_number = wrapFallible ns.get_l1_batch_number_impl ∧
    ns.get_block_details blockNum =
      wrapFallible (ns.get_block_details_impl blockNum) ∧
    ns.get_transaction_details hash =
      wrapFallible (ns.get_transaction_details_impl hash) ∧
    ns.get_raw_block_transactions blockNum2 =
      wrapFallible (ns.get_raw_block_transactions_impl blockNum2) ∧
    ns.get_l1_batch_details batch2 =
      wrapFallible (ns.get_l1_batch_details_impl batch2) ∧
    ns.get_bytecode_by_hash bhash =
      wrapInfallible (ns.get_bytecode_by_hash_impl bhash) ∧
    ns.get_l1_gas_price = wrapInfallible ns.get_l1_gas_price_impl ∧
    ns.set_known_bytecode bc = .error (into_jsrpc_error .notImplemented) :=
  ⟨rfl, rfl, rfl, rfl, rfl, rfl, rfl, rfl, rfl, rfl, rfl, rfl, rfl, rfl, rfl, rfl,
   rfl, rfl, rfl, rfl⟩
